import Mathlib

/-!
Verification of the domain-provisioning core of a transactional-email relay.

The development embeds the provisioning orchestrator (`addDomain`,
`checkDomainVerification`), the identity-provider adapter
(`createConfigurationSet`, `generateDNSRecords`) and the DNS-registrar
adapter (`retryRequest`, `createDNSRecord` payload construction,
`setupDomainDNS`, `verifyDomainOwnership`) as pure Lean functions.
External calls (identity provider, registrar, persistence) are modelled by
explicit response values carried in environment records, and the registrar
is modelled as a stub that remembers the records it has been asked to
create.  Theorems then settle the stated properties of the workflow.
-/

namespace FreeResend

/-! ### String helpers mirroring the JavaScript string operations -/

/-- Boolean test that `pat` is a leading segment of the character list. -/
def startsWithL : List Char → List Char → Bool
  | [], _ => true
  | _ :: _, [] => false
  | p :: ps, c :: cs => p == c && startsWithL ps cs

/-- Boolean substring test on character lists, mirroring `String.includes`. -/
def containsSubL (pat : List Char) : List Char → Bool
  | [] => startsWithL pat []
  | c :: cs => startsWithL pat (c :: cs) || containsSubL pat cs

/-- Substring test on strings, mirroring the JavaScript `includes`. -/
def containsSub (pat s : String) : Bool := containsSubL pat.data s.data

/-- Remove the first occurrence of `pat`, mirroring `replace(pat, "")`. -/
def removeFirstL (pat : List Char) : List Char → List Char
  | [] => []
  | c :: cs =>
    if startsWithL pat (c :: cs) then (c :: cs).drop pat.length
    else c :: removeFirstL pat cs

/-- String version of `removeFirstL`. -/
def removeFirst (s pat : String) : String := String.mk (removeFirstL pat.data s.data)

/-- Split a character list at every occurrence of `sep`, mirroring `split`. -/
def splitOnCharL (sep : Char) : List Char → List (List Char)
  | [] => [[]]
  | c :: cs =>
    let r := splitOnCharL sep cs
    if c = sep then [] :: r
    else
      match r with
      | [] => [[c]]
      | g :: gs => (c :: g) :: gs

/-- String version of `splitOnCharL`. -/
def splitOnChar (sep : Char) (s : String) : List String :=
  (splitOnCharL sep s.data).map String.mk

/-- Join strings with a separator, mirroring `Array.join`. -/
def joinWith (sep : String) : List String → String
  | [] => ""
  | [x] => x
  | x :: y :: rest => x ++ sep ++ joinWith sep (y :: rest)

/-- Replace every dot by a dash, mirroring `replace(/\./g, "-")`. -/
def replaceDots (s : String) : String :=
  String.mk (s.data.map (fun c => if c = '.' then '-' else c))

/-! ### Identity-provider adapter (`ses.ts`) -/

/-- A planned DNS record as produced by the planner (`generateDNSRecords`). -/
structure DNSRecord where
  type : String
  name : String
  value : String
  ttl : Nat
  description : String
deriving DecidableEq

/-- Error shape thrown by the identity-provider SDK, as inspected by
`createConfigurationSet`: an optional error name, a message, and an
optional HTTP status code from the response metadata. -/
structure SESError where
  name : Option String
  message : String
  httpStatusCode : Option Nat
deriving DecidableEq

/-- The already-exists detection of `createConfigurationSet`: a distinct
error name, a message substring, or HTTP status 409. -/
def isAlreadyExistsSignal (e : SESError) : Bool :=
  e.name == some "AlreadyExistsException" ||
  e.name == some "ConfigurationSetAlreadyExistsException" ||
  containsSub "already exists" e.message ||
  containsSub "Configuration set" e.message ||
  e.httpStatusCode == some 409

/-- The deterministic configuration-set name derived from the domain. -/
def configSetName (domain : String) : String :=
  "freeresend-" ++ replaceDots domain

/-- `createConfigurationSet` from `ses.ts`: issue the provider call (its
response is the `providerResp` argument); on success return the
deterministic name, on an already-exists error also return the name,
otherwise propagate the error. -/
def createConfigurationSet (providerResp : Except SESError Unit)
    (domain : String) : Except SESError String :=
  match providerResp with
  | .ok _ => .ok (configSetName domain)
  | .error e =>
    if isAlreadyExistsSignal e then .ok (configSetName domain) else .error e

/-- `generateDNSRecords` from `ses.ts`: the four fixed records (ownership
TXT, inbound MX, SPF TXT, DMARC TXT) followed by one DKIM CNAME per token. -/
def generateDNSRecords (domain verificationToken : String)
    (dkimTokens : List String) : List DNSRecord :=
  [ { type := "TXT", name := "_amazonses." ++ domain,
      value := verificationToken, ttl := 300,
      description := "SES Domain Verification" },
    { type := "MX", name := domain,
      value := "10 inbound-smtp.us-east-1.amazonaws.com.", ttl := 300,
      description := "SES Inbound Email" },
    { type := "TXT", name := domain,
      value := "v=spf1 include:amazonses.com ~all", ttl := 300,
      description := "SPF Record for SES" },
    { type := "TXT", name := "_dmarc." ++ domain,
      value := "v=DMARC1; p=quarantine; rua=mailto:dmarc@" ++ domain,
      ttl := 300, description := "DMARC Policy" } ]
  ++ dkimTokens.map (fun token =>
    { type := "CNAME", name := token ++ "._domainkey." ++ domain,
      value := token ++ ".dkim.amazonses.com.", ttl := 300,
      description := "DKIM Record (" ++ String.mk (token.data.take 8) ++ "...)" })

/-- Claim C3: for every domain name, verification token, and list of N DKIM
tokens, `generateDNSRecords` returns exactly 4 + N records, whose first
four types are TXT, MX, TXT, TXT in that order, followed by exactly N
CNAME records, one per token in token order. -/
theorem generateDNSRecords_shape (domain token : String)
    (dkimTokens : List String) :
    (generateDNSRecords domain token dkimTokens).length = 4 + dkimTokens.length ∧
    (generateDNSRecords domain token dkimTokens).map DNSRecord.type
      = ["TXT", "MX", "TXT", "TXT"] ++ dkimTokens.map (fun _ => "CNAME") ∧
    ((generateDNSRecords domain token dkimTokens).drop 4).map DNSRecord.name
      = dkimTokens.map (fun t => t ++ "._domainkey." ++ domain) := by
  refine ⟨?_, ?_, ?_⟩
  · simp [generateDNSRecords]
    omega
  · simp only [generateDNSRecords, List.map_append, List.map_map]
    rfl
  · have h : (generateDNSRecords domain token dkimTokens).drop 4
        = dkimTokens.map (fun tok =>
            ({ type := "CNAME", name := tok ++ "._domainkey." ++ domain,
               value := tok ++ ".dkim.amazonses.com.", ttl := 300,
               description := "DKIM Record ("
                 ++ String.mk (tok.data.take 8) ++ "...)" } : DNSRecord)) := rfl
    rw [h, List.map_map]
    rfl

/-- Claim C7: `createConfigurationSet` is idempotent by convention.  On a
successful provider response it returns the deterministic name derived
from the domain by replacing every dot with a dash; when the provider
signals that the set already exists (error name, message substring, or
HTTP 409) the call also succeeds with the same name; any other provider
error propagates. -/
theorem createConfigurationSet_idempotent (resp : Except SESError Unit)
    (domain : String) :
    (resp = Except.ok () →
        createConfigurationSet resp domain = Except.ok (configSetName domain)) ∧
    (∀ e : SESError, resp = Except.error e → isAlreadyExistsSignal e = true →
        createConfigurationSet resp domain = Except.ok (configSetName domain)) ∧
    (∀ e : SESError, resp = Except.error e → isAlreadyExistsSignal e = false →
        createConfigurationSet resp domain = Except.error e) ∧
    (∀ e : SESError, e.name = some "AlreadyExistsException" →
        isAlreadyExistsSignal e = true) ∧
    (∀ e : SESError, containsSub "already exists" e.message = true →
        isAlreadyExistsSignal e = true) ∧
    (∀ e : SESError, e.httpStatusCode = some 409 →
        isAlreadyExistsSignal e = true) ∧
    configSetName domain = "freeresend-" ++ replaceDots domain := by
  refine ⟨?_, ?_, ?_, ?_, ?_, ?_, rfl⟩
  · rintro rfl; rfl
  · rintro e rfl h; simp [createConfigurationSet, h]
  · rintro e rfl h; simp [createConfigurationSet, h]
  · intro e h; simp [isAlreadyExistsSignal, h]
  · intro e h; simp [isAlreadyExistsSignal, h]
  · intro e h; simp [isAlreadyExistsSignal, h]

/-- A sample provider error carrying all three already-exists signals. -/
def sampleAlreadyExistsError : SESError :=
  { name := some "ConfigurationSetAlreadyExistsException",
    message := "Configuration set already exists",
    httpStatusCode := some 409 }

/-- Witness for C7: at a concrete domain, an already-exists provider error
still yields the deterministic dash-separated name. -/
theorem createConfigurationSet_idempotent_witness :
    createConfigurationSet (Except.error sampleAlreadyExistsError)
      "mail.example.com" = Except.ok "freeresend-mail-example-com" := by
  have h :=
    (createConfigurationSet_idempotent
        (Except.error sampleAlreadyExistsError) "mail.example.com").2.1
      sampleAlreadyExistsError rfl (by decide)
  exact h

/-! ### Registrar adapter (`digitalocean.ts`) -/

/-- Digit test on a character by its code point. -/
def isDigitChar (c : Char) : Bool := Nat.ble 48 c.toNat && Nat.ble c.toNat 57

/-- The JavaScript `parseInt` on the strings arising here: parse the
leading run of decimal digits, none when there is no leading digit. -/
def parseIntL (cs : List Char) : Option Nat :=
  let digits := cs.takeWhile isDigitChar
  if digits = [] then none
  else some (digits.foldl (fun n c => n * 10 + (c.toNat - 48)) 0)

/-- The error shape inspected by `retryRequest`: an optional HTTP status
from the response. -/
structure DOHttpError where
  status : Option Nat
deriving DecidableEq

/-- Loop body of `retryRequest`.  `outcome i` is the result of the wrapped
request on attempt `i` (attempts count from 0), `jitter i` the random
jitter drawn before the delay following attempt `i`, and `remaining` the
number of attempts still allowed after the current one (`maxRetries`
minus `attempt`).  Returns the final result together with the list of
delays slept between attempts. -/
def retryGo {α : Type} (outcome : Nat → Except DOHttpError α)
    (jitter : Nat → Nat) (baseDelay : Nat) :
    Nat → Nat → Except DOHttpError α × List Nat
  | attempt, 0 =>
    match outcome attempt with
    | .ok v => (.ok v, [])
    | .error e => (.error e, [])
  | attempt, r + 1 =>
    match outcome attempt with
    | .ok v => (.ok v, [])
    | .error e =>
      if e.status ≠ some 429 ∧ attempt = 0 then (.error e, [])
      else
        let rest := retryGo outcome jitter baseDelay (attempt + 1) r
        (rest.1, (baseDelay * 2 ^ attempt + jitter attempt) :: rest.2)

/-- `retryRequest` from `digitalocean.ts` with explicit `maxRetries` and
`baseDelay` arguments (the source defaults are 3 and 1000). -/
def retryRequest {α : Type} (outcome : Nat → Except DOHttpError α)
    (jitter : Nat → Nat) (maxRetries baseDelay : Nat) :
    Except DOHttpError α × List Nat :=
  retryGo outcome jitter baseDelay 0 maxRetries

/-- A record stored at the registrar (`DODomainRecord`). -/
structure DODomainRecord where
  id : Nat
  type : String
  name : String
  data : String
  priority : Option Nat
  ttl : Nat
deriving DecidableEq

/-- The payload that `createDNSRecord` sends to the registrar. -/
structure DOPayload where
  type : String
  name : String
  data : String
  priority : Option Nat
  ttl : Nat
deriving DecidableEq

/-- Name translation used by `createDNSRecord` and `setupDomainDNS`: the
apex becomes the sentinel `@`, otherwise the first occurrence of
`.<domain>` is stripped. -/
def transformRecordName (domain name : String) : String :=
  if name = domain then "@" else removeFirst name ("." ++ domain)

/-- Payload construction of `createDNSRecord`: translate the name, and for
MX records split the planned value into a numeric priority and a
hostname forced to end with a trailing dot. -/
def createPayload (domain : String) (r : DNSRecord) : DOPayload :=
  let base : DOPayload :=
    { type := r.type, name := transformRecordName domain r.name,
      data := r.value, priority := none, ttl := r.ttl }
  if r.type = "MX" then
    let parts := splitOnChar ' ' r.value
    if 2 ≤ parts.length then
      let hostname0 := joinWith " " (parts.drop 1)
      let hostname :=
        if hostname0.data.getLast? == some '.' then hostname0
        else hostname0 ++ "."
      { base with data := hostname, priority := parseIntL (parts.headD "").data }
    else base
  else base

/-- The registrar stub: a successfully created record echoes the payload
back with a fresh id, exactly as the registrar stores it. -/
def stubCreatedRecord (id : Nat) (p : DOPayload) : DODomainRecord :=
  { id := id, type := p.type, name := p.name, data := p.data,
    priority := p.priority, ttl := p.ttl }

/-- The duplicate check of `setupDomainDNS`: for a CNAME record any
existing record with the same (translated) name counts as a match; for
every other record the type, name and data must match, the data being
compared against the planned value. -/
def recordAlreadyExists (domain : String) (existing : List DODomainRecord)
    (r : DNSRecord) : Bool :=
  let recordName := transformRecordName domain r.name
  if r.type = "CNAME" then
    existing.any (fun e => e.name == recordName)
  else
    existing.any (fun e =>
      e.type == r.type && e.name == recordName && e.data == r.value)

/-- Environment of the registrar adapter: whether an API token is
configured, the responses of the list-domains and list-records requests,
and which create requests fail (a per-record failure is absorbed by the
loop). -/
structure DOEnv where
  token : Bool
  listDomainsResp : Except String (List String)
  listRecordsResp : Except String (List DODomainRecord)
  createFails : DNSRecord → Bool

/-- `verifyDomainOwnership` from `digitalocean.ts`: false without a token,
false when listing domains fails, otherwise membership of the domain in
the account. -/
def verifyDomainOwnership (env : DOEnv) (domain : String) : Bool :=
  if env.token = false then false
  else
    match env.listDomainsResp with
    | .error _ => false
    | .ok doms => doms.any (fun d => d == domain)

/-- The per-record loop of `setupDomainDNS` against the snapshot of
existing records fetched once at the start: skip records judged present,
absorb per-record create failures, and collect the records the stub
registrar created, ids counting up from `nextId`. -/
def setupLoop (env : DOEnv) (domain : String)
    (existing : List DODomainRecord) :
    List DNSRecord → Nat → List DODomainRecord
  | [], _ => []
  | r :: rs, nextId =>
    if recordAlreadyExists domain existing r then
      setupLoop env domain existing rs nextId
    else if env.createFails r then
      setupLoop env domain existing rs nextId
    else
      stubCreatedRecord nextId (createPayload domain r)
        :: setupLoop env domain existing rs (nextId + 1)

/-- `setupDomainDNS` from `digitalocean.ts`: with no token return an empty
list without failing; otherwise list the domains (failure is wrapped and
thrown), require the domain to be present, fetch the existing records
once, and run the reconciliation loop. -/
def setupDomainDNS (env : DOEnv) (domain : String)
    (dnsRecords : List DNSRecord) (nextId : Nat) :
    Except String (List DODomainRecord) :=
  if env.token = false then .ok []
  else
    match env.listDomainsResp with
    | .error e =>
      .error ("Failed to setup domain DNS: Failed to fetch domains: " ++ e)
    | .ok doms =>
      if doms.any (fun d => d == domain) = false then
        .error ("Failed to setup domain DNS: Domain " ++ domain
          ++ " not found in Digital Ocean. Please add it first.")
      else
        match env.listRecordsResp with
        | .error e =>
          .error ("Failed to setup domain DNS: Failed to fetch domain records: "
            ++ e)
        | .ok existing => .ok (setupLoop env domain existing dnsRecords nextId)

/-! ### Retry policy (C6) -/

/-- Shape of the delays slept by the retry loop: there are at most
`remaining` of them and the one following attempt `attempt + k` equals
`baseDelay * 2 ^ (attempt + k)` plus the jitter drawn there. -/
theorem retryGo_delays {α : Type} (outcome : Nat → Except DOHttpError α)
    (jitter : Nat → Nat) (baseDelay : Nat) :
    ∀ remaining attempt,
      (retryGo outcome jitter baseDelay attempt remaining).2.length ≤ remaining ∧
      ∀ d ∈ (retryGo outcome jitter baseDelay attempt remaining).2,
        ∃ k, k < remaining ∧
          d = baseDelay * 2 ^ (attempt + k) + jitter (attempt + k)
  | 0, attempt => by
    cases h : outcome attempt <;> simp [retryGo, h]
  | r + 1, attempt => by
    cases h : outcome attempt with
    | ok v => simp [retryGo, h]
    | error e =>
      by_cases hc : e.status ≠ some 429 ∧ attempt = 0
      · obtain ⟨hs, ha⟩ := hc
        subst ha
        simp [retryGo, h, hs]
      · have ih := retryGo_delays outcome jitter baseDelay r (attempt + 1)
        simp only [retryGo, h, if_neg hc]
        constructor
        · simpa using Nat.succ_le_succ ih.1
        · intro d hd
          simp only [List.mem_cons] at hd
          rcases hd with hd | hd
          · exact ⟨0, by omega, by simpa using hd⟩
          · obtain ⟨k, hk, hdk⟩ := ih.2 d hd
            refine ⟨k + 1, by omega, ?_⟩
            have harith : attempt + (k + 1) = attempt + 1 + k := by omega
            rw [harith]
            exact hdk

/-- Claim C6: for a request wrapped by `retryRequest` with the source
defaults (3 retries, 1s base delay): a non-429 failure on the first
attempt propagates immediately with no delay; when every attempt fails
with status 429 the loop sleeps exactly the three delays
`1000 * 2 ^ i + jitter i` and then propagates the error of the final
attempt; in general at most 3 retries happen and every delay is
`1000 * 2 ^ i` plus a jitter below 1s. -/
theorem retryRequest_policy {α : Type} (outcome : Nat → Except DOHttpError α)
    (jitter : Nat → Nat) (hjit : ∀ i, jitter i < 1000) :
    (∀ e : DOHttpError, outcome 0 = Except.error e → e.status ≠ some 429 →
        retryRequest outcome jitter 3 1000 = (Except.error e, [])) ∧
    (∀ err : Nat → DOHttpError,
        (∀ i, i ≤ 3 →
            outcome i = Except.error (err i) ∧ (err i).status = some 429) →
        retryRequest outcome jitter 3 1000
          = (Except.error (err 3),
             [1000 * 2 ^ 0 + jitter 0, 1000 * 2 ^ 1 + jitter 1,
              1000 * 2 ^ 2 + jitter 2])) ∧
    (retryRequest outcome jitter 3 1000).2.length ≤ 3 ∧
    (∀ d ∈ (retryRequest outcome jitter 3 1000).2,
        ∃ i, i < 3 ∧ d = 1000 * 2 ^ i + jitter i ∧ d < 1000 * 2 ^ i + 1000) := by
  refine ⟨?_, ?_, ?_, ?_⟩
  · intro e h hs
    simp [retryRequest, retryGo, h, hs]
  · intro err h
    have h0 := h 0 (by omega)
    have h1 := h 1 (by omega)
    have h2 := h 2 (by omega)
    have h3 := h 3 (by omega)
    simp [retryRequest, retryGo, h0.1, h1.1, h2.1, h3.1, h0.2]
  · exact (retryGo_delays outcome jitter 1000 3 0).1
  · intro d hd
    obtain ⟨k, hk, hdk⟩ := (retryGo_delays outcome jitter 1000 3 0).2 d hd
    refine ⟨k, hk, ?_, ?_⟩
    · simpa using hdk
    · have := hjit k
      simp only [Nat.zero_add] at hdk
      omega

/-- All-attempts-rate-limited outcome used in the C6 witness. -/
def c6Outcome : Nat → Except DOHttpError Unit :=
  fun _ => Except.error { status := some 429 }

/-- Witness for C6: with constant jitter 7 and every attempt failing with
HTTP 429, the loop sleeps 1007, 2007, 4007 ms and propagates the last
error. -/
theorem retryRequest_policy_witness :
    retryRequest c6Outcome (fun _ => 7) 3 1000
      = (Except.error { status := some 429 }, [1007, 2007, 4007]) := by
  have h := (retryRequest_policy c6Outcome (fun _ => 7)
      (fun _ => by norm_num)).2.1
    (fun _ => { status := some 429 }) (fun i _ => ⟨rfl, rfl⟩)
  exact h

/-! ### Reconciliation idempotence (C2) -/

/-- Value extraction from an `Except` with a default. -/
def exceptGetD {ε α : Type} (x : Except ε α) (d : α) : α :=
  match x with
  | .ok v => v
  | .error _ => d

/-- Registrar environment of the first reconciliation run: the zone exists
and holds no records yet. -/
def c2Env1 : DOEnv :=
  { token := true, listDomainsResp := .ok ["example.com"],
    listRecordsResp := .ok [], createFails := fun _ => false }

/-- The planned record set used in both reconciliation runs. -/
def c2Plan : List DNSRecord := generateDNSRecords "example.com" "tok-123" ["dkim1"]

/-- The records the stub registrar stores during the first run. -/
def c2FirstRun : List DODomainRecord :=
  exceptGetD (setupDomainDNS c2Env1 "example.com" c2Plan 1) []

/-- Registrar environment of the second run: the record list now reflects
exactly what the first run created. -/
def c2Env2 : DOEnv :=
  { token := true, listDomainsResp := .ok ["example.com"],
    listRecordsResp := .ok c2FirstRun, createFails := fun _ => false }

/-- The MX record the second run creates again: the registrar stored the
split form (priority 10 plus bare hostname), which never compares equal
to the planned value `10 inbound-smtp...`. -/
def c2MxAgain : DODomainRecord :=
  { id := 6, type := "MX", name := "@",
    data := "inbound-smtp.us-east-1.amazonaws.com.",
    priority := some 10, ttl := 300 }

/-- Claim C2 (refuted by the code): the first run over an empty zone
creates all five planned records, but the second run against a registrar
remembering exactly those records creates the MX record again instead of
zero records — the duplicate check compares the stored hostname-only
data against the planned `priority hostname` value. -/
theorem setupDomainDNS_second_run_recreates_mx :
    setupDomainDNS c2Env1 "example.com" c2Plan 1 = Except.ok c2FirstRun ∧
    c2FirstRun.length = 5 ∧
    setupDomainDNS c2Env2 "example.com" c2Plan 6 = Except.ok [c2MxAgain] ∧
    [c2MxAgain] ≠ ([] : List DODomainRecord) := by
  refine ⟨rfl, rfl, rfl, by simp⟩

/-! ### Structural match during reconciliation (C4) -/

/-- Existing registrar records for the C4 counterexample: an A record whose
name coincides with the planned CNAME name. -/
def c4Existing : List DODomainRecord :=
  [{ id := 7, type := "A", name := "dkim1._domainkey",
     data := "203.0.113.5", priority := none, ttl := 300 }]

/-- Registrar environment for the C4 counterexample. -/
def c4Env : DOEnv :=
  { token := true, listDomainsResp := .ok ["example.com"],
    listRecordsResp := .ok c4Existing, createFails := fun _ => false }

/-- The planned CNAME record of the C4 counterexample. -/
def c4Cname : DNSRecord :=
  { type := "CNAME", name := "dkim1._domainkey.example.com",
    value := "dkim1.dkim.amazonses.com.", ttl := 300,
    description := "DKIM Record (dkim1...)" }

/-- Claim C4 (refuted at a CNAME record): no existing record matches the
planned CNAME on type and name, yet reconciliation creates nothing,
because for CNAME records the code matches on the name alone. -/
theorem cname_match_ignores_type :
    setupDomainDNS c4Env "example.com" [c4Cname] 1 = Except.ok [] ∧
    c4Existing.any (fun e => e.type == "CNAME"
      && e.name == transformRecordName "example.com" c4Cname.name) = false := by
  exact ⟨rfl, rfl⟩

/-- Number created records with ids counting up from `n`. -/
def assignIds : Nat → List DOPayload → List DODomainRecord
  | _, [] => []
  | n, p :: ps => stubCreatedRecord n p :: assignIds (n + 1) ps

/-- The reconciliation loop creates exactly the planned records with no
structural match in the snapshot, in plan order. -/
theorem setupLoop_filter (env : DOEnv) (domain : String)
    (existing : List DODomainRecord)
    (hok : ∀ r, env.createFails r = false) :
    ∀ plan nextId,
      setupLoop env domain existing plan nextId
        = assignIds nextId
            ((plan.filter (fun r => !recordAlreadyExists domain existing r)).map
              (createPayload domain))
  | [], _ => rfl
  | r :: rs, nextId => by
    by_cases hex : recordAlreadyExists domain existing r
    · simp [setupLoop, hex, setupLoop_filter env domain existing hok rs nextId]
    · simp [setupLoop, hex, hok r, List.filter_cons, assignIds,
        setupLoop_filter env domain existing hok rs (nextId + 1)]

/-- Claim C4, amended: during reconciliation a planned record is judged
present by structural comparison against the snapshot of existing
records — for a CNAME record any existing record with the same
translated name matches, regardless of its type; for every non-CNAME
record type, name and value must all match — and a record is created
exactly when no such match exists. -/
theorem setupDomainDNS_structural_match (env : DOEnv) (domain : String)
    (plan : List DNSRecord) (existing : List DODomainRecord)
    (doms : List String) (nextId : Nat)
    (htok : env.token = true)
    (hdoms : env.listDomainsResp = Except.ok doms)
    (hmem : doms.any (fun d => d == domain) = true)
    (hrecs : env.listRecordsResp = Except.ok existing)
    (hcreate : ∀ r, env.createFails r = false) :
    setupDomainDNS env domain plan nextId
      = Except.ok (assignIds nextId
          ((plan.filter (fun r => !recordAlreadyExists domain existing r)).map
            (createPayload domain))) ∧
    (∀ r : DNSRecord, recordAlreadyExists domain existing r
        = (if r.type = "CNAME" then
             existing.any (fun e => e.name == transformRecordName domain r.name)
           else
             existing.any (fun e => e.type == r.type
               && e.name == transformRecordName domain r.name
               && e.data == r.value))) := by
  constructor
  · simp [setupDomainDNS, htok, hdoms, hmem, hrecs,
      setupLoop_filter env domain existing hcreate plan nextId]
  · intro r
    rfl

/-- A planned TXT record absent from the C4 snapshot. -/
def c4Txt : DNSRecord :=
  { type := "TXT", name := "example.com", value := "v=spf1 include:amazonses.com ~all",
    ttl := 300, description := "SPF Record for SES" }

/-- Witness for the amended C4: on a concrete plan the CNAME with a
name-only match is skipped while the unmatched TXT record is created. -/
theorem setupDomainDNS_structural_match_witness :
    setupDomainDNS c4Env "example.com" [c4Cname, c4Txt] 1
      = Except.ok (assignIds 1
          (([c4Cname, c4Txt].filter
              (fun r => !recordAlreadyExists "example.com" c4Existing r)).map
            (createPayload "example.com"))) := by
  exact (setupDomainDNS_structural_match c4Env "example.com" [c4Cname, c4Txt]
    c4Existing ["example.com"] 1 rfl rfl rfl rfl (fun _ => rfl)).1

/-! ### Orchestrator (`domains.ts`) -/

/-- Domain lifecycle status. -/
inductive DomainStatus
  | pending
  | verified
  | failed
deriving DecidableEq

/-- The persisted domain row (the fields the provisioning core reads and
writes). -/
structure Domain where
  id : String
  user_id : String
  domain : String
  status : DomainStatus
  ses_configuration_set : Option String
  verification_token : Option String
  dns_records : List DNSRecord
deriving DecidableEq

/-- Alphanumeric test by code point, mirroring the `[a-zA-Z0-9]` class. -/
def isAlnumChar (c : Char) : Bool :=
  (Nat.ble 97 c.toNat && Nat.ble c.toNat 122) ||
  (Nat.ble 65 c.toNat && Nat.ble c.toNat 90) ||
  isDigitChar c

/-- The `[a-zA-Z0-9-]` class of the domain regular expression. -/
def isLabelChar (c : Char) : Bool := isAlnumChar c || c == '-'

/-- One label of the domain regular expression: a single alphanumeric
character, or an alphanumeric, up to 61 inner label characters, and a
final alphanumeric. -/
def validLabel : List Char → Bool
  | [] => false
  | c :: cs =>
    match cs with
    | [] => isAlnumChar c
    | _ :: _ =>
      isAlnumChar c && isAlnumChar (cs.getLastD '-')
        && cs.dropLast.all isLabelChar && Nat.ble cs.dropLast.length 61

/-- `isValidDomain` from `domains.ts`: dot-separated valid labels and a
total length of at most 253. -/
def isValidDomain (domain : String) : Bool :=
  ((splitOnCharL '.' domain.data).all validLabel)
    && Nat.ble domain.data.length 253

/-- The `DNSRecord` shape of `domains.ts` (no description field), used for
the records reported back from the registrar. -/
structure SimpleDNSRecord where
  type : String
  name : String
  value : String
  ttl : Nat
deriving DecidableEq

/-- `convertDORecordToDNSRecord` from `domains.ts`. -/
def convertDORecordToDNSRecord (d : DODomainRecord) : SimpleDNSRecord :=
  { type := d.type, name := d.name, value := d.data, ttl := d.ttl }

/-- One adapter invocation, recorded in the order the orchestrator makes
them. -/
inductive AdapterCall
  | verifyDomain
  | enableDomainDkim
  | getDomainDkimTokens
  | getDomainVerificationStatus
  | createConfigurationSet
  | verifyDomainOwnership
  | setupDomainDNS
deriving DecidableEq

/-- Responses of the identity-provider adapter calls the orchestrator can
make (each field is the outcome of the corresponding call, would it be
made). -/
structure SESEnv where
  verifyDomainResp : Except String String
  enableDkimResp : Except String (List String)
  getDkimTokensResp : Except String (List String)
  getStatusResp : Except String String
  configSetResp : Except SESError Unit

/-- Environment of one orchestrator run: identity-provider responses,
registrar environment, persistence outcomes, the id the insert assigns,
and the first id the stub registrar assigns. -/
structure Env where
  ses : SESEnv
  dns : DOEnv
  insertOk : Bool
  updateResp : Except String Bool
  newId : String
  nextRecordId : Nat

/-- The `DomainSetupResult` returned by `addDomain`. -/
structure DomainSetupResult where
  domain : Domain
  dnsRecords : List DNSRecord
  sesConfigurationSet : Option String
  digitalOceanRecords : List SimpleDNSRecord
  setupInstructions : String
deriving DecidableEq

/-- The registrar step of the new-domain path of `addDomain` (step 5):
check ownership, reconcile when the zone is present, and turn every
failure into advisory instructions. -/
def registrarStepNew (env : Env) (domainName : String)
    (dnsRecords : List DNSRecord) :
    List SimpleDNSRecord × String × List AdapterCall :=
  if verifyDomainOwnership env.dns domainName then
    match setupDomainDNS env.dns domainName dnsRecords env.nextRecordId with
    | .ok doRecords =>
      (doRecords.map convertDORecordToDNSRecord,
       "DNS records have been automatically created in Digital Ocean.",
       [AdapterCall.verifyDomainOwnership, AdapterCall.setupDomainDNS])
    | .error _ =>
      ([],
       "DNS records need to be created manually. Please add the following records to your DNS provider:",
       [AdapterCall.verifyDomainOwnership, AdapterCall.setupDomainDNS])
  else
    ([],
     "Domain not found in Digital Ocean. Please create the DNS records manually or add the domain to your Digital Ocean account first.",
     [AdapterCall.verifyDomainOwnership])

/-- The registrar step of the existing-domain path (step 5 of
`verifyAndCompleteExistingDomain`), identical control flow with its own
instruction texts. -/
def registrarStepExisting (env : Env) (domainName : String)
    (dnsRecords : List DNSRecord) :
    List SimpleDNSRecord × String × List AdapterCall :=
  if verifyDomainOwnership env.dns domainName then
    match setupDomainDNS env.dns domainName dnsRecords env.nextRecordId with
    | .ok doRecords =>
      (doRecords.map convertDORecordToDNSRecord,
       "DNS records have been verified/updated in Digital Ocean.",
       [AdapterCall.verifyDomainOwnership, AdapterCall.setupDomainDNS])
    | .error _ =>
      ([], "DNS records need to be updated manually in Digital Ocean.",
       [AdapterCall.verifyDomainOwnership, AdapterCall.setupDomainDNS])
  else
    ([],
     "Domain not found in Digital Ocean. Please add the domain to your Digital Ocean account or create DNS records manually.",
     [AdapterCall.verifyDomainOwnership])

/-- The new-domain path of `addDomain`: verify the identity (fatal on
failure, wrapped by the surrounding catch), enable DKIM best-effort,
create the configuration set (no inner catch: a failure reaches the
surrounding catch and is re-thrown wrapped), plan the records, run the
registrar step, and insert the row. -/
def addNewDomain (env : Env) (userId domainName : String) :
    Except String DomainSetupResult × List AdapterCall :=
  match env.ses.verifyDomainResp with
  | .error e =>
    (.error ("Failed to add domain: " ++ e), [AdapterCall.verifyDomain])
  | .ok verificationToken =>
    let dkimTokens :=
      match env.ses.enableDkimResp with
      | .ok ts => ts
      | .error _ => []
    match createConfigurationSet env.ses.configSetResp domainName with
    | .error e =>
      (.error ("Failed to add domain: " ++ e.message),
       [AdapterCall.verifyDomain, AdapterCall.enableDomainDkim,
        AdapterCall.createConfigurationSet])
    | .ok configurationSet =>
      let dnsRecords := generateDNSRecords domainName verificationToken dkimTokens
      let reg := registrarStepNew env domainName dnsRecords
      let calls := [AdapterCall.verifyDomain, AdapterCall.enableDomainDkim,
        AdapterCall.createConfigurationSet] ++ reg.2.2
      if env.insertOk = false then
        (.error "Failed to add domain: Failed to create domain record", calls)
      else
        let newDomain : Domain :=
          { id := env.newId, user_id := userId, domain := domainName,
            status := .pending,
            ses_configuration_set := some configurationSet,
            verification_token := some verificationToken,
            dns_records := dnsRecords }
        (.ok { domain := newDomain,
               dnsRecords := dnsRecords,
               sesConfigurationSet := some configurationSet,
               digitalOceanRecords := reg.1,
               setupInstructions := reg.2.1 }, calls)

/-- JavaScript falsiness of an optional string (undefined or empty). -/
def optionFalsy : Option String → Bool
  | none => true
  | some s => s == ""

/-- `verifyAndCompleteExistingDomain` from `domains.ts`: ownership check
first, then best-effort reconciliation of SES status, DKIM tokens,
configuration set and registrar records, with an update persisted only
when the token or the configuration set changed. -/
def verifyAndCompleteExistingDomain (env : Env) (userId : String)
    (existingDomain : Domain) :
    Except String DomainSetupResult × List AdapterCall :=
  if existingDomain.user_id ≠ userId then
    (.error "Domain belongs to another user", [])
  else
    let step1 : Option String × Bool × List AdapterCall :=
      match env.ses.getStatusResp with
      | .ok _ => (existingDomain.verification_token, false,
          [AdapterCall.getDomainVerificationStatus])
      | .error e =>
        if containsSub "not exist" e || containsSub "not found" e then
          match env.ses.verifyDomainResp with
          | .ok t => (some t, true,
              [AdapterCall.getDomainVerificationStatus, AdapterCall.verifyDomain])
          | .error _ => (existingDomain.verification_token, false,
              [AdapterCall.getDomainVerificationStatus, AdapterCall.verifyDomain])
        else (existingDomain.verification_token, false,
            [AdapterCall.getDomainVerificationStatus])
    let step2 : List String × List AdapterCall :=
      match env.ses.getDkimTokensResp with
      | .ok ts => (ts, [AdapterCall.getDomainDkimTokens])
      | .error _ =>
        match env.ses.enableDkimResp with
        | .ok ts => (ts,
            [AdapterCall.getDomainDkimTokens, AdapterCall.enableDomainDkim])
        | .error _ => ([],
            [AdapterCall.getDomainDkimTokens, AdapterCall.enableDomainDkim])
    let step3 : Option String × Bool × List AdapterCall :=
      if optionFalsy existingDomain.ses_configuration_set then
        match createConfigurationSet env.ses.configSetResp existingDomain.domain with
        | .ok cs => (some cs, true, [AdapterCall.createConfigurationSet])
        | .error _ => (existingDomain.ses_configuration_set, false,
            [AdapterCall.createConfigurationSet])
      else (existingDomain.ses_configuration_set, false, [])
    let dnsRecords :=
      generateDNSRecords existingDomain.domain (step1.1.getD "") step2.1
    let reg := registrarStepExisting env existingDomain.domain dnsRecords
    let needsUpdate := step1.2.1 || step3.2.1
    let calls := step1.2.2 ++ step2.2 ++ step3.2.2 ++ reg.2.2
    if needsUpdate then
      match env.updateResp with
      | .error e =>
        (.error ("Failed to verify existing domain setup: " ++ e), calls)
      | .ok true =>
        let updatedDomain : Domain :=
          { existingDomain with
            verification_token := step1.1,
            ses_configuration_set := step3.1,
            dns_records := dnsRecords }
        (.ok { domain := updatedDomain,
               dnsRecords := dnsRecords,
               sesConfigurationSet := step3.1,
               digitalOceanRecords := reg.1,
               setupInstructions := "Domain already exists. " ++ reg.2.1 }, calls)
      | .ok false =>
        (.ok { domain := existingDomain, dnsRecords := dnsRecords,
               sesConfigurationSet := step3.1, digitalOceanRecords := reg.1,
               setupInstructions := "Domain already exists. " ++ reg.2.1 }, calls)
    else
      (.ok { domain := existingDomain, dnsRecords := dnsRecords,
             sesConfigurationSet := step3.1, digitalOceanRecords := reg.1,
             setupInstructions := "Domain already exists. " ++ reg.2.1 }, calls)

/-- `addDomain` from `domains.ts`: validate the format, route to the
existing-domain path when the name is already recorded, otherwise run the
new-domain path.  The second component lists the adapter calls made. -/
def addDomain (env : Env) (db : List Domain) (userId domainName : String) :
    Except String DomainSetupResult × List AdapterCall :=
  if isValidDomain domainName = false then
    (.error "Invalid domain format", [])
  else
    match db.find? (fun d => d.domain == domainName) with
    | some existingDomain => verifyAndCompleteExistingDomain env userId existingDomain
    | none => addNewDomain env userId domainName

/-- `updateDomainStatus` from `domains.ts`, as a pure update of the
domain table. -/
def updateDomainStatus (db : List Domain) (domainId : String)
    (status : DomainStatus) : List Domain :=
  db.map (fun d => if d.id == domainId then { d with status := status } else d)

/-- The status mapping inside `checkDomainVerification`. -/
def mapSesStatus (s : String) : DomainStatus :=
  if s = "Success" then .verified
  else if s = "Failed" then .failed
  else .pending

/-- Result of `checkDomainVerification`: the returned status, the domain
table afterwards, and the persistence writes issued. -/
structure VerificationCheck where
  status : DomainStatus
  db : List Domain
  writes : List (String × DomainStatus)
deriving DecidableEq

/-- `checkDomainVerification` from `domains.ts`: look up the row, query the
provider, map the status, persist only on change, and on a provider
query failure return the stored status with no write. -/
def checkDomainVerification (statusResp : Except String String)
    (db : List Domain) (domainId : String) :
    Except String VerificationCheck :=
  match db.find? (fun d => d.id == domainId) with
  | none => .error "Domain not found"
  | some d =>
    match statusResp with
    | .error _ => .ok { status := d.status, db := db, writes := [] }
    | .ok sesStatus =>
      let newStatus := mapSesStatus sesStatus
      if newStatus ≠ d.status then
        .ok { status := newStatus,
              db := updateDomainStatus db domainId newStatus,
              writes := [(domainId, newStatus)] }
      else .ok { status := newStatus, db := db, writes := [] }

/-! ### Verification status mapping (C5, C10) -/

/-- Claim C5: `checkDomainVerification` maps provider status Success to
verified, Failed to failed, and every other status (in particular Pending,
NotStarted, TemporaryFailure) to pending, and it issues a persistence
write exactly when the mapped status differs from the stored one. -/
theorem checkDomainVerification_status_mapping
    (db : List Domain) (domainId s : String) (d : Domain)
    (hfind : db.find? (fun x => x.id == domainId) = some d) :
    (mapSesStatus "Success" = DomainStatus.verified ∧
     mapSesStatus "Failed" = DomainStatus.failed ∧
     mapSesStatus "Pending" = DomainStatus.pending ∧
     mapSesStatus "NotStarted" = DomainStatus.pending ∧
     mapSesStatus "TemporaryFailure" = DomainStatus.pending ∧
     (∀ t, t ≠ "Success" → t ≠ "Failed" → mapSesStatus t = DomainStatus.pending)) ∧
    (∃ r, checkDomainVerification (Except.ok s) db domainId = Except.ok r ∧
       r.status = mapSesStatus s ∧
       (r.writes
         = if mapSesStatus s ≠ d.status then [(domainId, mapSesStatus s)] else []) ∧
       (r.writes ≠ [] ↔ mapSesStatus s ≠ d.status)) := by
  constructor
  · refine ⟨rfl, rfl, rfl, rfl, rfl, ?_⟩
    intro t h1 h2
    simp [mapSesStatus, h1, h2]
  · by_cases hch : mapSesStatus s ≠ d.status
    · refine ⟨{ status := mapSesStatus s,
                db := updateDomainStatus db domainId (mapSesStatus s),
                writes := [(domainId, mapSesStatus s)] }, ?_, rfl, ?_, ?_⟩ <;>
        simp [checkDomainVerification, hfind, hch]
    · refine ⟨{ status := mapSesStatus s, db := db, writes := [] },
        ?_, rfl, ?_, ?_⟩ <;>
        simp [checkDomainVerification, hfind, hch]

/-- Row used by the C5 and C10 witnesses. -/
def sampleRow : Domain :=
  { id := "d-1", user_id := "userA", domain := "example.com",
    status := .pending, ses_configuration_set := none,
    verification_token := some "tok-123", dns_records := [] }

/-- Witness for C5: a Success report on a pending row returns verified and
writes the change. -/
theorem checkDomainVerification_status_mapping_witness :
    ∃ r, checkDomainVerification (Except.ok "Success") [sampleRow] "d-1"
        = Except.ok r ∧
      r.status = mapSesStatus "Success" ∧
      (r.writes = if mapSesStatus "Success" ≠ sampleRow.status then
          [("d-1", mapSesStatus "Success")] else []) ∧
      (r.writes ≠ [] ↔ mapSesStatus "Success" ≠ sampleRow.status) := by
  exact (checkDomainVerification_status_mapping [sampleRow] "d-1" "Success"
    sampleRow rfl).2

/-- Claim C10: when the provider status query fails for an existing row,
`checkDomainVerification` returns the stored status, leaves the table
unchanged, and issues no persistence write. -/
theorem checkDomainVerification_query_failure
    (db : List Domain) (domainId e : String) (d : Domain)
    (hfind : db.find? (fun x => x.id == domainId) = some d) :
    checkDomainVerification (Except.error e) db domainId
      = Except.ok { status := d.status, db := db, writes := [] } := by
  simp [checkDomainVerification, hfind]

/-- Witness for C10: a failing provider query on a concrete table returns
the stored pending status with no write. -/
theorem checkDomainVerification_query_failure_witness :
    checkDomainVerification (Except.error "ses down") [sampleRow] "d-1"
      = Except.ok { status := sampleRow.status, db := [sampleRow], writes := [] } := by
  exact checkDomainVerification_query_failure [sampleRow] "d-1" "ses down"
    sampleRow rfl

/-! ### Ownership enforcement (C8) -/

/-- Claim C8: for a recorded domain owned by user A, `addDomain` called by
a different user B fails with the ownership error and makes zero adapter
calls. -/
theorem addDomain_ownership_enforced (env : Env) (db : List Domain)
    (dA : Domain) (userB domainName : String)
    (hvalid : isValidDomain domainName = true)
    (hfind : db.find? (fun d => d.domain == domainName) = some dA)
    (howner : dA.user_id ≠ userB) :
    addDomain env db userB domainName
      = (Except.error "Domain belongs to another user", []) := by
  simp [addDomain, hvalid, hfind, verifyAndCompleteExistingDomain, howner]

/-- Baseline environment for the concrete orchestrator runs. -/
def baseEnv : Env :=
  { ses := { verifyDomainResp := .ok "tok-123",
             enableDkimResp := .ok ["dkim1"],
             getDkimTokensResp := .ok ["dkim1"],
             getStatusResp := .ok "Pending",
             configSetResp := .ok () },
    dns := { token := true, listDomainsResp := .ok ["example.com"],
             listRecordsResp := .ok [], createFails := fun _ => false },
    insertOk := true, updateResp := .ok true,
    newId := "d-new", nextRecordId := 1 }

/-- Witness for C8: user B adding the domain recorded for user A gets the
ownership error and an empty call trace. -/
theorem addDomain_ownership_enforced_witness :
    addDomain baseEnv [sampleRow] "userB" "example.com"
      = (Except.error "Domain belongs to another user", []) := by
  exact addDomain_ownership_enforced baseEnv [sampleRow] sampleRow "userB"
    "example.com" (by decide) rfl (by decide)

/-! ### Registrar disabled (C9) -/

/-- Claim C9: with no registrar credentials, `verifyDomainOwnership` is
false for every domain, `setupDomainDNS` returns an empty list without
failing, and provisioning a new domain returns an outcome with no created
registrar records and manual-setup guidance in the instructions, with no
exception from the registrar step. -/
theorem registrar_disabled_manual_path :
    (∀ env : DOEnv, ∀ domain : String, env.token = false →
        verifyDomainOwnership env domain = false) ∧
    (∀ env : DOEnv, ∀ domain : String, ∀ plan : List DNSRecord, ∀ n : Nat,
        env.token = false → setupDomainDNS env domain plan n = Except.ok []) ∧
    (∀ env : Env, ∀ db : List Domain, ∀ userId domainName tok cs : String,
        env.dns.token = false →
        isValidDomain domainName = true →
        db.find? (fun d => d.domain == domainName) = none →
        env.ses.verifyDomainResp = Except.ok tok →
        createConfigurationSet env.ses.configSetResp domainName = Except.ok cs →
        env.insertOk = true →
        ∃ r, (addDomain env db userId domainName).1 = Except.ok r ∧
          r.digitalOceanRecords = [] ∧
          r.setupInstructions = "Domain not found in Digital Ocean. Please create the DNS records manually or add the domain to your Digital Ocean account first." ∧
          containsSub "manually" r.setupInstructions = true) := by
  refine ⟨?_, ?_, ?_⟩
  · intro env domain htok
    simp [verifyDomainOwnership, htok]
  · intro env domain plan n htok
    simp [setupDomainDNS, htok]
  · intro env db userId domainName tok cs htok hvalid hfind hverify hcs hins
    have hown : verifyDomainOwnership env.dns domainName = false := by
      simp [verifyDomainOwnership, htok]
    simp only [addDomain, hvalid, hfind, addNewDomain, hverify, hcs,
      registrarStepNew, hown, hins, Bool.true_eq_false, if_false,
      Bool.false_eq_true, ite_false, ite_true]
    refine ⟨_, rfl, rfl, rfl, ?_⟩
    show containsSub "manually" "Domain not found in Digital Ocean. Please create the DNS records manually or add the domain to your Digital Ocean account first." = true
    decide

/-- Environment with no registrar token for the C9 witness. -/
def c9Env : Env :=
  { ses := { verifyDomainResp := .ok "tok-123",
             enableDkimResp := .ok ["dkim1"],
             getDkimTokensResp := .ok [],
             getStatusResp := .ok "Pending",
             configSetResp := .ok () },
    dns := { token := false, listDomainsResp := .error "no token",
             listRecordsResp := .error "no token", createFails := fun _ => false },
    insertOk := true, updateResp := .ok true,
    newId := "d-new", nextRecordId := 1 }

/-- Witness for C9: a concrete provisioning run without registrar
credentials returns the manual-instructions outcome. -/
theorem registrar_disabled_manual_path_witness :
    ∃ r, (addDomain c9Env [] "u1" "example.com").1 = Except.ok r ∧
      r.digitalOceanRecords = [] ∧
      r.setupInstructions = "Domain not found in Digital Ocean. Please create the DNS records manually or add the domain to your Digital Ocean account first." ∧
      containsSub "manually" r.setupInstructions = true := by
  exact registrar_disabled_manual_path.2.2 c9Env [] "u1" "example.com"
    "tok-123" (configSetName "example.com") rfl (by decide) rfl rfl rfl rfl

/-! ### Error boundary of provisioning (C1) -/

/-- Environment whose configuration-set creation fails with an error that
carries no already-exists signal. -/
def c1Env : Env :=
  { ses := { verifyDomainResp := .ok "tok-123",
             enableDkimResp := .ok ["dkim1"],
             getDkimTokensResp := .ok [],
             getStatusResp := .ok "Pending",
             configSetResp := .error { name := some "InternalFailure",
                                       message := "boom",
                                       httpStatusCode := some 500 } },
    dns := { token := true, listDomainsResp := .ok ["example.com"],
             listRecordsResp := .ok [], createFails := fun _ => false },
    insertOk := true, updateResp := .ok true,
    newId := "d-new", nextRecordId := 1 }

/-- Claim C1 (refuted): on the new-domain path a failure of
`createConfigurationSet` is not absorbed — `addDomain` throws the wrapped
error instead of returning an outcome. -/
theorem addDomain_configset_failure_throws :
    (addDomain c1Env [] "u1" "example.com").1
      = Except.error "Failed to add domain: boom" := rfl

/-- Every error of the existing-domain path is the ownership error or an
error wrapped by its catch. -/
theorem verifyAndComplete_error_shape (env : Env) (userId : String)
    (ed : Domain) (msg : String)
    (h : (verifyAndCompleteExistingDomain env userId ed).1 = Except.error msg) :
    msg = "Domain belongs to another user" ∨
    ∃ e, msg = "Failed to verify existing domain setup: " ++ e := by
  simp only [verifyAndCompleteExistingDomain] at h
  split at h
  · injection h with h2
    exact Or.inl h2.symm
  · repeat' split at h
    all_goals
      first
        | (injection h with h2; exact Or.inr ⟨_, h2.symm⟩)
        | exact absurd h (by simp)

/-- Every error of the new-domain path is wrapped by its catch. -/
theorem addNewDomain_error_shape (env : Env) (userId domainName : String)
    (msg : String)
    (h : (addNewDomain env userId domainName).1 = Except.error msg) :
    ∃ e, msg = "Failed to add domain: " ++ e := by
  simp only [addNewDomain] at h
  repeat' split at h
  all_goals
    first
      | (injection h with h2; exact ⟨_, h2.symm⟩)
      | exact absurd h (by simp)

/-- Claim C1, amended: `addDomain` fails only with the invalid-format
error, the ownership error, or an error wrapped as Failed-to-add-domain
(new-domain path: identity verification, configuration-set creation, or
the insert) or Failed-to-verify-existing-domain-setup (existing path:
the update); DKIM and registrar failures are absorbed — with identity
verification, configuration-set creation and the insert succeeding,
`addDomain` returns an outcome whatever the DKIM response and registrar
environment are; and a configuration-set failure on the new-domain path
propagates wrapped, not absorbed. -/
theorem addDomain_failure_modes (env : Env) (db : List Domain)
    (userId domainName : String) :
    (∀ msg, (addDomain env db userId domainName).1 = Except.error msg →
        msg = "Invalid domain format" ∨
        msg = "Domain belongs to another user" ∨
        (∃ e, msg = "Failed to add domain: " ++ e) ∨
        (∃ e, msg = "Failed to verify existing domain setup: " ++ e)) ∧
    (∀ tok cs, isValidDomain domainName = true →
        db.find? (fun d => d.domain == domainName) = none →
        env.ses.verifyDomainResp = Except.ok tok →
        createConfigurationSet env.ses.configSetResp domainName = Except.ok cs →
        env.insertOk = true →
        ∃ r, (addDomain env db userId domainName).1 = Except.ok r) ∧
    (∀ tok e, isValidDomain domainName = true →
        db.find? (fun d => d.domain == domainName) = none →
        env.ses.verifyDomainResp = Except.ok tok →
        createConfigurationSet env.ses.configSetResp domainName
          = Except.error e →
        (addDomain env db userId domainName).1
          = Except.error ("Failed to add domain: " ++ e.message)) := by
  refine ⟨?_, ?_, ?_⟩
  · intro msg h
    unfold addDomain at h
    split at h
    · injection h with h2
      exact Or.inl h2.symm
    · split at h
      · rcases verifyAndComplete_error_shape env userId _ msg h with h1 | h1
        · exact Or.inr (Or.inl h1)
        · exact Or.inr (Or.inr (Or.inr h1))
      · rcases addNewDomain_error_shape env userId domainName msg h with ⟨e, he⟩
        exact Or.inr (Or.inr (Or.inl ⟨e, he⟩))
  · intro tok cs hvalid hfind hverify hcs hins
    simp only [addDomain, hvalid, hfind, addNewDomain, hverify, hcs, hins,
      Bool.true_eq_false, if_false, ite_false, ite_true, Bool.false_eq_true]
    exact ⟨_, rfl⟩
  · intro tok e hvalid hfind hverify hcs
    simp only [addDomain, hvalid, hfind, addNewDomain, hverify, hcs,
      Bool.true_eq_false, if_false, ite_false, ite_true, Bool.false_eq_true]

/-- Witness for the amended C1: the concrete configuration-set failure is
propagated wrapped. -/
theorem addDomain_failure_modes_witness :
    (addDomain c1Env [] "u1" "example.com").1
      = Except.error ("Failed to add domain: "
          ++ ({ name := some "InternalFailure", message := "boom",
                httpStatusCode := some 500 } : SESError).message) := by
  exact (addDomain_failure_modes c1Env [] "u1" "example.com").2.2 "tok-123"
    { name := some "InternalFailure", message := "boom",
      httpStatusCode := some 500 }
    (by decide) rfl rfl rfl

end FreeResend
